import Mathlib

/-!
Verification development for the LabourLawAssistant serverless handlers.

The repository consists of several JavaScript request handlers (variants of
an `ask` endpoint plus a read-only `get_cases` endpoint) that orchestrate a
retrieval-augmented pipeline: optional history rewrite, optional query
expansion, embedding, hybrid search, optional structured case extraction and
persistence, and final generation.  Each handler is shallowly embedded below
as a pure Lean function from the parsed request and an oracle environment
(the external LLM, embedding, search and case-store collaborators) to the
HTTP response together with the ordered trace of external calls the handler
makes.  External provider outputs are parameters of the environment; the
control flow, the strings the handlers build, and the arguments of every
external call are translated directly from the source.
-/

namespace LLA

/-- A chat turn exchanged between the user and the assistant
(`{role, content}` objects in the request history). -/
structure Turn where
  role : String
  content : String
deriving DecidableEq, Repr

/-- A minimal JSON value model, used for response bodies that the handlers
build with `JSON.stringify`. -/
inductive Json where
  | null : Json
  | bool (b : Bool) : Json
  | num (n : Nat) : Json
  | str (s : String) : Json
  | arr (elems : List Json) : Json
  | obj (fields : List (String × Json)) : Json

/-- An HTTP response body: either a raw text body (the handlers return the
plain string `Method Not Allowed` for wrong methods) or the serialization of
a JSON value (everything the handlers pass through `JSON.stringify`). -/
inductive Body where
  | rawText (s : String) : Body
  | jsonOf (j : Json) : Body

/-- An HTTP response as returned by a handler. -/
structure Response where
  statusCode : Nat
  body : Body

/-- The JSON error body `JSON.stringify({ error: msg })` used by the
handlers for validation and catch-block failures. -/
def jsonErr (msg : String) : Body :=
  Body.jsonOf (Json.obj [("error", Json.str msg)])

/-- Whether a JSON value is a string. -/
def Json.isStr : Json → Bool
  | Json.str _ => true
  | _ => false

/-- Whether a body is a JSON object carrying a textual `error` field. -/
def isJsonErrorBody : Body → Bool
  | Body.jsonOf (Json.obj fields) => fields.any (fun f => f.1 == "error" && f.2.isStr)
  | _ => false

/-- A row returned by the `hybrid_search` stored procedure. -/
structure Chunk where
  id : Nat
  content : String
deriving DecidableEq, Repr

/-- Serialization of a retrieved chunk inside the `sources` array of a
success response. -/
def chunkJson (c : Chunk) : Json :=
  Json.obj [("id", Json.num c.id), ("content", Json.str c.content)]

/-- The named arguments of the `hybrid_search` remote procedure call.
The two fusion weights are the exact integral values 1.0 and 2.0 from the
source, modelled as naturals. -/
structure SearchArgs where
  query_text : String
  query_embedding : List Int
  match_count : Nat
  full_text_weight : Nat
  semantic_weight : Nat
  rrf_k : Nat
deriving DecidableEq, Repr

/-- The `{ data, error }` result shape of a supabase RPC call. -/
structure SearchResult where
  data : Option (List Chunk)
  error : Option String
deriving DecidableEq, Repr

/-- The structured Case Record extracted by the case-tracking handler.
`none` models the JSON `null` the extraction prompt mandates for unknown
fields. -/
structure CaseFacts where
  client_name : Option String
  contact_info : Option String
  employer_name : Option String
  incident_date : Option String
  incident_description : Option String
  hearing_held : Option Bool
  case_merit_assessed : Option Bool
deriving DecidableEq, Repr

/-- `Object.keys(caseFacts).filter(key => caseFacts[key] === null && key !== 'case_merit_assessed')`:
the required fields currently null, in the key order of the extraction
template, with the merits flag excluded by the filter. -/
def CaseFacts.missingFields (cf : CaseFacts) : List String :=
  (if cf.client_name = none then ["client_name"] else []) ++
  (if cf.contact_info = none then ["contact_info"] else []) ++
  (if cf.employer_name = none then ["employer_name"] else []) ++
  (if cf.incident_date = none then ["incident_date"] else []) ++
  (if cf.incident_description = none then ["incident_description"] else []) ++
  (if cf.hearing_held = none then ["hearing_held"] else [])

/-- JavaScript truthiness of an optional string: `null`/absent and the empty
string are falsy. -/
def optStrTruthy : Option String → Bool
  | some s => s != ""
  | none => false

/-- The payload object the case-tracking handler sends to the case store.
`client_name` and `contact_info` are `none` when the corresponding spread
`...(caseFacts.client_name && {...})` contributed no column. -/
structure DbPayload where
  updated_at : String
  issue_summary : String
  case_facts : CaseFacts
  client_name : Option String
  contact_info : Option String
deriving DecidableEq, Repr

/-- The `dbPayload` object literal of the case-tracking handler:
`issue_summary` is `caseFacts.incident_description || 'Gathering facts...'`
and the two contact columns are included only when truthy. -/
def mkDbPayload (now : String) (cf : CaseFacts) : DbPayload :=
  { updated_at := now
    issue_summary :=
      match cf.incident_description with
      | some s => if s != "" then s else "Gathering facts..."
      | none => "Gathering facts..."
    case_facts := cf
    client_name := if optStrTruthy cf.client_name then cf.client_name else none
    contact_info := if optStrTruthy cf.contact_info then cf.contact_info else none }

/-- A persisted row of the external `cases` table. -/
structure CaseRow where
  id : String
  updated_at : String
  issue_summary : String
  case_facts : CaseFacts
  client_name : Option String
  contact_info : Option String
deriving DecidableEq, Repr

/-- Models the external store executing `cases.update(dbPayload)` on a row:
every column present in the payload is replaced with the payload value, and
columns absent from the payload (the conditionally spread contact columns)
keep their stored value.  This is the standard column-update semantics of
the external record store, not repository code. -/
def applyUpdate (row : CaseRow) (p : DbPayload) : CaseRow :=
  { row with
    updated_at := p.updated_at
    issue_summary := p.issue_summary
    case_facts := p.case_facts
    client_name :=
      match p.client_name with
      | some v => some v
      | none => row.client_name
    contact_info :=
      match p.contact_info with
      | some v => some v
      | none => row.contact_info }

/-- The row shape returned by `insert(...).select().single()`; the handlers
only ever read its `id`. -/
structure InsertedRow where
  id : String
deriving DecidableEq, Repr

/-- The `{ data, error }` result of a case insert. -/
structure InsertResult where
  data : Option InsertedRow
  error : Option String
deriving DecidableEq, Repr

/-- The `{ error }` part of a case update result (the handler never
destructures anything else from it). -/
structure UpdateResult where
  error : Option String
deriving DecidableEq, Repr

/-- The `{ data, error }` result of the cases listing query. -/
structure CasesQueryResult where
  data : Option (List CaseRow)
  error : Option String

/-- One external call made by a handler, recorded in order in the trace:
free-form text generation, structured (JSON-mode) generation, embedding,
hybrid search, and the two case-store writes. -/
inductive CallEv where
  | genText (prompt : String) : CallEv
  | genJson (prompt : String) : CallEv
  | embed (text : String) : CallEv
  | search (args : SearchArgs) : CallEv
  | updateCase (id : String) (payload : DbPayload) : CallEv
  | insertCase (payload : DbPayload) : CallEv
deriving DecidableEq, Repr

/-- Whether a trace event is a free-form text generation call. -/
def CallEv.isGenText : CallEv → Bool
  | CallEv.genText _ => true
  | _ => false

/-- Whether a trace event is a structured generation call. -/
def CallEv.isGenJson : CallEv → Bool
  | CallEv.genJson _ => true
  | _ => false

/-- Whether a trace event is a case-store write (update or insert). -/
def CallEv.isPersist : CallEv → Bool
  | CallEv.updateCase _ _ => true
  | CallEv.insertCase _ => true
  | _ => false

/-- The oracle environment: the external collaborators a handler calls.
Provider text outputs are arbitrary functions of the prompt; the structured
calls return the already parsed value or a parse/transport failure message
(`Except.error`), because the handlers `JSON.parse` those outputs inside the
same `try` block. -/
structure Env where
  generate : String → String
  embed : String → List Int
  hybridSearch : SearchArgs → SearchResult
  extract : String → Except String CaseFacts
  generateJson : String → Except String Json
  generateCase : String → Except String (List (String × Json))
  updateCase : String → DbPayload → UpdateResult
  insertCase : DbPayload → InsertResult
  now : String

/-- The parsed request body `{ question, history, caseId }`; absent keys are
`none`. -/
structure ReqBody where
  question : Option String
  history : Option (List Turn)
  caseId : Option String

/-- An inbound HTTP event: the method and the outcome of
`JSON.parse(event.body)` (`Except.error` carries the parse failure message
that the catch block would surface). -/
structure Request where
  httpMethod : String
  body : Except String ReqBody

/-- A well-formed POST request with the given body fields. -/
def postReq (q : Option String) (hist : Option (List Turn)) (cid : Option String) : Request :=
  { httpMethod := "POST", body := Except.ok { question := q, history := hist, caseId := cid } }

/-- JavaScript falsiness of the `question` field (`!question`): absent,
null, or the empty string. -/
def questionFalsy : Option String → Bool
  | none => true
  | some s => s == ""

/-- `history && history.length > 0`. -/
def histNonempty : Option (List Turn) → Bool
  | some (_ :: _) => true
  | _ => false

/-- `history.map(msg => msg.role.toUpperCase() + ": " + msg.content).join("\n")`. -/
def historyText (hist : List Turn) : String :=
  String.intercalate "\n" (hist.map fun m => String.map Char.toUpper m.role ++ ": " ++ m.content)

/-- Simplified `JSON.stringify` of one turn (no character escaping; the
result only ever feeds opaque prompt text). -/
def stringifyTurn (t : Turn) : String :=
  "\x7b\"role\":\"" ++ t.role ++ "\",\"content\":\"" ++ t.content ++ "\"\x7d"

/-- Simplified `JSON.stringify` of a history array. -/
def stringifyHistory (hist : List Turn) : String :=
  "[" ++ String.intercalate "," (hist.map stringifyTurn) ++ "]"

/-- Simplified `JSON.stringify` of an optional string field. -/
def stringifyOptStr : Option String → String
  | some s => "\"" ++ s ++ "\""
  | none => "null"

/-- Simplified `JSON.stringify` of an optional boolean field. -/
def stringifyOptBool : Option Bool → String
  | some true => "true"
  | some false => "false"
  | none => "null"

/-- Simplified `JSON.stringify(caseFacts, null, 2)` (the prompts that embed
it are opaque to every theorem below). -/
def stringifyFacts (cf : CaseFacts) : String :=
  "\x7b\n  \"client_name\": " ++ stringifyOptStr cf.client_name ++
  ",\n  \"contact_info\": " ++ stringifyOptStr cf.contact_info ++
  ",\n  \"employer_name\": " ++ stringifyOptStr cf.employer_name ++
  ",\n  \"incident_date\": " ++ stringifyOptStr cf.incident_date ++
  ",\n  \"incident_description\": " ++ stringifyOptStr cf.incident_description ++
  ",\n  \"hearing_held\": " ++ stringifyOptBool cf.hearing_held ++
  ",\n  \"case_merit_assessed\": " ++ stringifyOptBool cf.case_merit_assessed ++ "\n\x7d"

/-- Simplified `JSON.stringify` of the missing-fields string array. -/
def stringifyStrList (xs : List String) : String :=
  "[" ++ String.intercalate "," (xs.map fun s => "\"" ++ s ++ "\"") ++ "]"

/-- `SOURCE (id):` context assembly of the first ask variant. -/
def contextTextA (chunks : List Chunk) : String :=
  String.intercalate "\n\n---\n\n"
    (chunks.map fun c => "SOURCE (" ++ toString c.id ++ "):\n" ++ c.content)

/-- `SOURCE (ID: id):` context assembly shared by the later variants. -/
def contextTextId (chunks : List Chunk) : String :=
  String.intercalate "\n\n---\n\n"
    (chunks.map fun c => "SOURCE (ID: " ++ toString c.id ++ "):\n" ++ c.content)

/-- The message of the TypeError JavaScript raises when `.map` is read from
a null `data` value. -/
def nullMapMsg : String := "Cannot read properties of null (reading \x27map\x27)"

/-- The message of the TypeError JavaScript raises when `.id` is read from a
null `single()` result. -/
def nullIdMsg : String := "Cannot read properties of null (reading \x27id\x27)"

namespace AskV1

/-- The answer prompt of the first ask variant (match_count 5). -/
def prompt (contextText question : String) : String :=
  "\n    You are a legal assistant for South African labor law. \n    Use the following context to answer the user\x27s question.\n    \n    Rules:\n    - Base your answer ONLY on the provided context.\n    - If the answer is not in the context, say \"I cannot find this in the database.\"\n    - Cite the case names or acts if mentioned in the text.\n    \n    Context:\n    "
  ++ contextText ++ "\n    \n    User Question: \n    " ++ question ++ "\n    "

/-- The 500 catch-block body of the first ask variant:
`{ error: "Internal Server Error", details: error.message }`. -/
def errBody (msg : String) : Body :=
  Body.jsonOf (Json.obj [("error", Json.str "Internal Server Error"), ("details", Json.str msg)])

/-- The first ask handler: embed the raw question, hybrid search with
match_count 5, answer with a free-form generation call. -/
def handler (req : Request) (env : Env) : Response × List CallEv :=
  if req.httpMethod != "POST" then
    ({ statusCode := 405, body := Body.rawText "Method Not Allowed" }, [])
  else
    match req.body with
    | Except.error msg => ({ statusCode := 500, body := errBody msg }, [])
    | Except.ok b =>
      if questionFalsy b.question then
        ({ statusCode := 400, body := jsonErr "Question is required" }, [])
      else
        let q := b.question.getD ""
        let vector := env.embed q
        let args : SearchArgs :=
          { query_text := q, query_embedding := vector, match_count := 5,
            full_text_weight := 1, semantic_weight := 2, rrf_k := 50 }
        let res := env.hybridSearch args
        let tr := [CallEv.embed q, CallEv.search args]
        match res.error with
        | some _ => ({ statusCode := 500, body := errBody "Failed to search database." }, tr)
        | none =>
          match res.data with
          | none => ({ statusCode := 500, body := errBody nullMapMsg }, tr)
          | some chunks =>
            let p := prompt (contextTextA chunks) q
            let answer := env.generate p
            ({ statusCode := 200,
               body := Body.jsonOf (Json.obj
                 [("answer", Json.str answer), ("sources", Json.arr (chunks.map chunkJson))]) },
             tr ++ [CallEv.genText p])

end AskV1

namespace AskV2

/-- The answer prompt of the second ask variant (match_count 15). -/
def prompt (contextText question : String) : String :=
  "\n    You are a professional legal assistant for South African labor law. \n    Your knowledge base is STRICTLY LIMITED to the provided context below.\n\n    Directives:\n    1. **Strict Grounding:** Answer the user\x27s question using ONLY the information found in the \x27Context\x27 section below. Do not use your own outside knowledge.\n    2. **Transparency:** If the answer is not explicitly found in the context, state: \"I cannot find specific details regarding this in the uploaded documents.\" Do not try to make up an answer.\n    3. **Professional Tone:** Provide clear, concise, and professional answers. Use bullet points for lists.\n    4. **Citations:** Refer to specific Acts or Sections if available in the text (e.g., \"According to the Basic Conditions of Employment Act...\"). \n    5. **Clean Output:** Do NOT mention internal \"Source IDs\", \"Chunks\", or \"Database Records\" in your final response.\n\n    Context:\n    "
  ++ contextText ++ "\n    \n    User Question: \n    " ++ question ++ "\n    "

/-- The 500 catch-block body of the second ask variant:
`{ error: error.message || "Unknown Error" }`. -/
def errBody (msg : String) : Body :=
  jsonErr (if msg != "" then msg else "Unknown Error")

/-- The second ask handler: embed the raw question, hybrid search with
match_count 15, stricter grounding prompt, search failures wrapped as
`Database Error: ...`. -/
def handler (req : Request) (env : Env) : Response × List CallEv :=
  if req.httpMethod != "POST" then
    ({ statusCode := 405, body := Body.rawText "Method Not Allowed" }, [])
  else
    match req.body with
    | Except.error msg => ({ statusCode := 500, body := errBody msg }, [])
    | Except.ok b =>
      if questionFalsy b.question then
        ({ statusCode := 400, body := jsonErr "Question is required" }, [])
      else
        let q := b.question.getD ""
        let vector := env.embed q
        let args : SearchArgs :=
          { query_text := q, query_embedding := vector, match_count := 15,
            full_text_weight := 1, semantic_weight := 2, rrf_k := 50 }
        let res := env.hybridSearch args
        let tr := [CallEv.embed q, CallEv.search args]
        match res.error with
        | some msg => ({ statusCode := 500, body := errBody ("Database Error: " ++ msg) }, tr)
        | none =>
          match res.data with
          | none => ({ statusCode := 500, body := errBody nullMapMsg }, tr)
          | some chunks =>
            let p := prompt (contextTextId chunks) q
            let answer := env.generate p
            ({ statusCode := 200,
               body := Body.jsonOf (Json.obj
                 [("answer", Json.str answer), ("sources", Json.arr (chunks.map chunkJson))]) },
             tr ++ [CallEv.genText p])

end AskV2

namespace AskV3

/-- The query-expansion prompt of the third ask variant. -/
def expansionPrompt (question : String) : String :=
  "\n      You are a legal research assistant. \n      Convert the following user query (which may be a story or scenario) into 5 specific legal search terms or concepts relevant to South African Labour Law.\n      Do not answer the question. Just output the keywords.\n      \n      User Query: \"" ++ question ++ "\"\n      \n      Keywords:\n    "

/-- `legalKeywords`: the raw text the generation provider returns for the
expansion prompt. -/
def legalKeywords (question : String) (env : Env) : String :=
  env.generate (expansionPrompt question)

/-- `const combinedSearchQuery = question + " " + legalKeywords`. -/
def combinedSearchQuery (question : String) (env : Env) : String :=
  question ++ " " ++ legalKeywords question env

/-- The answer prompt of the third ask variant. -/
def finalPrompt (contextText question : String) : String :=
  "\n    You are a professional legal assistant for South African labor law.\n    \n    CONTEXT:\n    " ++ contextText ++
  "\n\n    USER QUERY:\n    " ++ question ++
  "\n\n    INSTRUCTIONS:\n    1. **Analyze the Scenario:** Look for legal concepts in the context that apply to the user\x27s story (e.g., if they mention \"swearing\", look for \"misconduct\" or \"insubordination\" in the context).\n    2. **Strict Grounding:** Base your advice ONLY on the provided context acts and codes.\n    3. **Handle Gaps:** - If the exact answer is in the text, give it.\n       - If the *exact* answer is missing, but the context contains the *general procedure* (like Schedule 8 Code of Good Practice), explain that general procedure.\n       - **CRITICAL:** If you need more details to give a specific answer (e.g., \"Is there a contract?\", \"Was there a hearing?\"), **ASK THE USER** these questions at the end of your response to clarify the situation.\n    4. **Tone:** Professional, empathetic, but legally cautious. Do not give binding legal advice, give \"guidance based on the Act\".\n    5. **Output:** Clean text, use bullet points. Do NOT mention \"Source IDs\".\n    "

/-- The `hybrid_search` arguments of the third ask variant. -/
def searchArgs (sq : String) (vector : List Int) : SearchArgs :=
  { query_text := sq, query_embedding := vector, match_count := 15,
    full_text_weight := 1, semantic_weight := 2, rrf_k := 50 }

/-- The third ask handler: expand the question into legal keywords, search
with the combined query on both the lexical and the embedded channel. -/
def handler (req : Request) (env : Env) : Response × List CallEv :=
  if req.httpMethod != "POST" then
    ({ statusCode := 405, body := Body.rawText "Method Not Allowed" }, [])
  else
    match req.body with
    | Except.error msg => ({ statusCode := 500, body := jsonErr msg }, [])
    | Except.ok b =>
      if questionFalsy b.question then
        ({ statusCode := 400, body := jsonErr "Question required" }, [])
      else
        let q := b.question.getD ""
        let combined := combinedSearchQuery q env
        let vector := env.embed combined
        let args := searchArgs combined vector
        let res := env.hybridSearch args
        let tr := [CallEv.genText (expansionPrompt q), CallEv.embed combined, CallEv.search args]
        match res.error with
        | some msg => ({ statusCode := 500, body := jsonErr ("Database Error: " ++ msg) }, tr)
        | none =>
          match res.data with
          | none => ({ statusCode := 500, body := jsonErr nullMapMsg }, tr)
          | some chunks =>
            let p := finalPrompt (contextTextId chunks) q
            let answer := env.generate p
            ({ statusCode := 200,
               body := Body.jsonOf (Json.obj
                 [("answer", Json.str answer), ("sources", Json.arr (chunks.map chunkJson))]) },
             tr ++ [CallEv.genText p])

end AskV3

namespace AskV4

/-- The history-rewrite prompt of the case-tracking ask variant. -/
def rewritePrompt (question historyTxt : String) : String :=
  "\n            Rewrite this \"New User Question\" into a standalone sentence using the \"Chat History\" for context.\n            New User Question: \"" ++ question ++ "\"\n            Chat History: " ++ historyTxt ++ "\n        "

/-- STEP 1 of the case-tracking variant: `standaloneQuestion` starts as the
raw question and is replaced by the trimmed rewrite output only when
`history && history.length > 0`.  Returns the standalone question together
with the generation calls this step made. -/
def standalone (question : String) (history : Option (List Turn)) (env : Env) :
    String × List CallEv :=
  match history with
  | some (h :: t) =>
    let p := rewritePrompt question (historyText (h :: t))
    ((env.generate p).trim, [CallEv.genText p])
  | _ => (question, [])

/-- The `hybrid_search` arguments of the case-tracking variant
(match_count 10, lexical and embedded channel both fed the standalone
question). -/
def searchArgs (sq : String) (vector : List Int) : SearchArgs :=
  { query_text := sq, query_embedding := vector, match_count := 10,
    full_text_weight := 1, semantic_weight := 2, rrf_k := 50 }

/-- The mandatory-field extraction prompt of the case-tracking variant. -/
def extractionPrompt (hist : List Turn) : String :=
  "\n    Analyze this chat history. Extract the following MANDATORY screening fields for a Labour Law case.\n    If the user has not provided the information yet, set the value strictly to null.\n    \n    Chat History:\n    " ++ stringifyHistory hist ++
  "\n\n    Return ONLY a JSON object with exactly this structure:\n    \x7b\n      \"client_name\": null,\n      \"contact_info\": null,\n      \"employer_name\": null,\n      \"incident_date\": null,\n      \"incident_description\": null,\n      \"hearing_held\": null,\n      \"case_merit_assessed\": false\n    \x7d\n    "

/-- The stage header string interpolated into the final prompt:
`missingFields.length > 0 ? "STAGE 1: INTAKE CHECKLIST" : "STAGE 2: MERIT ASSESSMENT & PITCH"`. -/
def stage (cf : CaseFacts) : String :=
  if cf.missingFields.length > 0 then "STAGE 1: INTAKE CHECKLIST"
  else "STAGE 2: MERIT ASSESSMENT & PITCH"

/-- The staged generation prompt of the case-tracking variant. -/
def finalPrompt (cf : CaseFacts) (contextText question : String) : String :=
  "\n    You are Justine, a Senior Labour Law Conversion Agent.\n    \n    YOUR CURRENT STAGE IN THE PROCESS:\n    " ++ stage cf ++
  "\n\n    CURRENT CASE FACTS:\n    " ++ stringifyFacts cf ++
  "\n\n    MISSING FIELDS TO COLLECT:\n    " ++ stringifyStrList cf.missingFields ++
  "\n\n    LEGAL CONTEXT (For reference):\n    " ++ contextText ++
  "\n\n    USER QUERY:\n    " ++ question ++
  "\n\n    INSTRUCTIONS FOR STAGE 1 (If you are in STAGE 1):\n    1. You MUST gather the missing fields one by one. DO NOT give final legal advice yet.\n    2. Politely and naturally ask the user for the FIRST missing field on the list.\n    3. Example: If \"employer_name\" is missing, say \"To help me look into this, could you tell me the name of the company you work for?\"\n    4. Keep the conversation flowing naturally, acknowledge what they just said, but steer them to the next question.\n\n    INSTRUCTIONS FOR STAGE 2 (If you are in STAGE 2 - All facts collected):\n    1. Evaluate their situation using the LEGAL CONTEXT. Does their case have merit? (e.g., was it an unfair dismissal?).\n    2. Explain your findings briefly and simply.\n    3. **THE PITCH:** Tell them that based on the merits, you highly recommend sending a formal \"Without Prejudice\" letter to the employer to demand a settlement or rectify the issue.\n    4. Inform them that you can draft this letter for them right now. Once drafted, one of our human attorneys will review, sign, and send it for a fixed fee. Ask if they would like you to generate the draft.\n\n    OUTPUT FORMAT (Return JSON):\n    \x7b\n      \"conversation\": \"Your conversational response (asking a question OR giving the pitch).\",\n      \"legal_reasoning\": \"Markdown note. In Stage 1: Document what you are asking and why. In Stage 2: Document the legal merits of the case based on the Acts.\"\n    \x7d\n    "

/-- The upsert step: a truthy `caseId` routes to `cases.update` whose result
is discarded entirely; otherwise `cases.insert(...).select().single()` is
destructured into `{ data: newCase }` only, and reading `newCase.id` from a
null row raises the TypeError modelled by the error branch. -/
def upsert (caseId : Option String) (payload : DbPayload) (env : Env) :
    Except String String × List CallEv :=
  if optStrTruthy caseId then
    let cid := caseId.getD ""
    let _ := env.updateCase cid payload
    (Except.ok cid, [CallEv.updateCase cid payload])
  else
    let ins := env.insertCase payload
    match ins.data with
    | some row => (Except.ok row.id, [CallEv.insertCase payload])
    | none => (Except.error nullIdMsg, [CallEv.insertCase payload])

/-- PHASE 3 of the case-tracking variant: staged structured generation; the
success body is the spread `{ ...responseJson, caseId: activeCaseId }`. -/
def generatePhase (question : String) (env : Env) (contextText : String)
    (caseFacts : CaseFacts) (activeCaseId : String) (tr : List CallEv) :
    Response × List CallEv :=
  let fp := finalPrompt caseFacts contextText question
  let tr4 := tr ++ [CallEv.genJson fp]
  match env.generateCase fp with
  | Except.error msg => ({ statusCode := 500, body := jsonErr msg }, tr4)
  | Except.ok fields =>
    ({ statusCode := 200,
       body := Body.jsonOf (Json.obj (fields ++ [("caseId", Json.str activeCaseId)])) }, tr4)

/-- PHASE 2 of the case-tracking variant: extraction, upsert, then the
staged generation phase. -/
def afterSearch (question : String) (history : Option (List Turn))
    (caseId : Option String) (env : Env) (contextText : String) (tr : List CallEv) :
    Response × List CallEv :=
  let historyForExtraction := (history.getD []) ++ [{ role := "user", content := question }]
  let ep := extractionPrompt historyForExtraction
  let tr3 := tr ++ [CallEv.genJson ep]
  match env.extract ep with
  | Except.error msg => ({ statusCode := 500, body := jsonErr msg }, tr3)
  | Except.ok caseFacts =>
    let payload := mkDbPayload env.now caseFacts
    let up := upsert caseId payload env
    match up.1 with
    | Except.error msg => ({ statusCode := 500, body := jsonErr msg }, tr3 ++ up.2)
    | Except.ok activeCaseId =>
      generatePhase question env contextText caseFacts activeCaseId (tr3 ++ up.2)

/-- The validated pipeline of the case-tracking variant: rewrite, embed,
hybrid search, then extraction/persistence/generation. -/
def pipeline (question : String) (history : Option (List Turn))
    (caseId : Option String) (env : Env) : Response × List CallEv :=
  let s := standalone question history env
  let sq := s.1
  let vector := env.embed sq
  let args := searchArgs sq vector
  let res := env.hybridSearch args
  let tr2 := s.2 ++ [CallEv.embed sq, CallEv.search args]
  match res.error with
  | some msg => ({ statusCode := 500, body := jsonErr ("Database Error: " ++ msg) }, tr2)
  | none =>
    match res.data with
    | none => ({ statusCode := 500, body := jsonErr nullMapMsg }, tr2)
    | some chunks => afterSearch question history caseId env (contextTextId chunks) tr2

/-- The case-tracking ask handler. -/
def handler (req : Request) (env : Env) : Response × List CallEv :=
  if req.httpMethod != "POST" then
    ({ statusCode := 405, body := Body.rawText "Method Not Allowed" }, [])
  else
    match req.body with
    | Except.error msg => ({ statusCode := 500, body := jsonErr msg }, [])
    | Except.ok b =>
      if questionFalsy b.question then
        ({ statusCode := 400, body := jsonErr "Question required" }, [])
      else pipeline (b.question.getD "") b.history b.caseId env

end AskV4

namespace Part000

/-- The contextualization (rewrite) prompt of the first unnamed variant. -/
def rewritePrompt (question historyTxt : String) : String :=
  "\n        Rewrite the \"New User Question\" to be a standalone sentence that incorporates context from the \"Chat History\".\n        Resolve references like \"he\", \"it\", \"the letter\".\n        \n        Chat History:\n        " ++ historyTxt ++
  "\n        \n        New User Question: \"" ++ question ++ "\"\n        \n        Rewritten Question:\n        "

/-- STEP 1 of the first unnamed variant: the standalone question and the
generation calls the rewrite step made. -/
def standalone (question : String) (history : Option (List Turn)) (env : Env) :
    String × List CallEv :=
  match history with
  | some (h :: t) =>
    let p := rewritePrompt question (historyText (h :: t))
    ((env.generate p).trim, [CallEv.genText p])
  | _ => (question, [])

/-- The search-intent expansion prompt of the first unnamed variant. -/
def expansionPrompt (sq : String) : String :=
  "\n      You are a legal expert. Convert the query \"" ++ sq ++ "\" into 3 specific South African Labour Law search terms.\n      Examples: \"BCEA Section 10\", \"Schedule 8 Code of Good Practice\", \"LRA Unfair Dismissal\".\n      Output ONLY the terms.\n    "

/-- `legalKeywords` of the first unnamed variant. -/
def legalKeywords (sq : String) (env : Env) : String :=
  env.generate (expansionPrompt sq)

/-- `const combinedSearchQuery = standaloneQuestion + " " + legalKeywords`. -/
def combinedSearchQuery (sq : String) (env : Env) : String :=
  sq ++ " " ++ legalKeywords sq env

/-- The `hybrid_search` arguments of the first unnamed variant. -/
def searchArgs (sq : String) (vector : List Int) : SearchArgs :=
  { query_text := sq, query_embedding := vector, match_count := 10,
    full_text_weight := 1, semantic_weight := 2, rrf_k := 50 }

/-- The investigative answer-generation prompt of the first unnamed variant. -/
def finalPrompt (contextText : String) (history : Option (List Turn))
    (question sq : String) : String :=
  "\n    You are a Senior Labour Law Consultant conducting an intake interview.\n    \n    GOAL:\n    Guide the user to a solution. To do this, you usually need to gather specific facts first.\n    Do not be passive. Be proactive and investigative.\n\n    CONTEXT (Legal Documents):\n    " ++ contextText ++
  "\n\n    CONVERSATION HISTORY:\n    " ++ stringifyHistory (history.getD []) ++
  "\n\n    CURRENT USER QUERY:\n    " ++ question ++ " (Contextualized: " ++ sq ++ ")" ++
  "\n\n    INSTRUCTIONS:\n    Return a JSON object with exactly these two fields:\n\n    1. \"conversation\":\n       - **ACT AS AN INVESTIGATOR.**\n       - If the user\x27s query lacks specific details (e.g., \"I was fired\"), DO NOT just give a generic definition of dismissal.\n       - **IMMEDIATELY ASK** 1 or 2 relevant clarifying questions based on the law (e.g., \"Were you given a notice to attend a hearing?\", \"Do you have a written contract?\", \"How many employees are at the company?\").\n       - Only provide the final legal conclusion if you have enough facts.\n       - Keep the tone professional but direct. Max 3 sentences.\n\n    2. \"legal_reasoning\":\n       - **SHOW YOUR WORK.**\n       - If you asked questions in the conversation, explain *why* those facts are legally important here. (e.g., \"I am asking about the contract because BCEA Section 37 determines notice periods based on length of service.\")\n       - Cite specific Acts/Sections from the CONTEXT that triggered your questions.\n       - Use markdown bullet points.\n    "

/-- The first unnamed handler: rewrite, expand, search with the combined
query, structured generation. -/
def handler (req : Request) (env : Env) : Response × List CallEv :=
  if req.httpMethod != "POST" then
    ({ statusCode := 405, body := Body.rawText "Method Not Allowed" }, [])
  else
    match req.body with
    | Except.error msg => ({ statusCode := 500, body := jsonErr msg }, [])
    | Except.ok b =>
      if questionFalsy b.question then
        ({ statusCode := 400, body := jsonErr "Question required" }, [])
      else
        let q := b.question.getD ""
        let s := standalone q b.history env
        let sq := s.1
        let combined := combinedSearchQuery sq env
        let vector := env.embed combined
        let args := searchArgs combined vector
        let res := env.hybridSearch args
        let tr := s.2 ++ [CallEv.genText (expansionPrompt sq), CallEv.embed combined, CallEv.search args]
        match res.error with
        | some msg => ({ statusCode := 500, body := jsonErr ("Database Error: " ++ msg) }, tr)
        | none =>
          match res.data with
          | none => ({ statusCode := 500, body := jsonErr nullMapMsg }, tr)
          | some chunks =>
            let fp := finalPrompt (contextTextId chunks) b.history q sq
            let tr4 := tr ++ [CallEv.genJson fp]
            match env.generateJson fp with
            | Except.error msg => ({ statusCode := 500, body := jsonErr msg }, tr4)
            | Except.ok j => ({ statusCode := 200, body := Body.jsonOf j }, tr4)

end Part000

namespace Part001

/-- The contextualization (rewrite) prompt of the second unnamed variant. -/
def rewritePrompt (question historyTxt : String) : String :=
  "\n        Given the following conversation history and a new user question, rewrite the new question to be a standalone sentence that includes all necessary context from the history.\n        \n        Chat History:\n        " ++ historyTxt ++
  "\n        \n        New User Question: \"" ++ question ++ "\"\n        \n        Directives:\n        1. Resolve references like \"he\", \"it\", \"that\" to the specific nouns mentioned earlier.\n        2. Keep the core intent of the question.\n        3. If the question is already standalone, return it as is.\n        \n        Rewritten Question:\n        "

/-- STEP 1 of the second unnamed variant: the standalone question and the
generation calls the rewrite step made. -/
def standalone (question : String) (history : Option (List Turn)) (env : Env) :
    String × List CallEv :=
  match history with
  | some (h :: t) =>
    let p := rewritePrompt question (historyText (h :: t))
    ((env.generate p).trim, [CallEv.genText p])
  | _ => (question, [])

/-- The query-expansion prompt of the second unnamed variant (built from the
REWRITTEN question). -/
def expansionPrompt (sq : String) : String :=
  "\n      You are a legal research assistant. \n      Convert the following specific query into 3 specific legal search terms for South African Labour Law.\n      Output specific Act names or legal concepts (e.g. \"BCEA Section 10\", \"Automatic Unfair Dismissal\").\n      \n      Query: \"" ++ sq ++ "\"\n      \n      Output just the terms.\n    "

/-- `legalKeywords` of the second unnamed variant. -/
def legalKeywords (sq : String) (env : Env) : String :=
  env.generate (expansionPrompt sq)

/-- `const combinedSearchQuery = standaloneQuestion + " " + legalKeywords`. -/
def combinedSearchQuery (sq : String) (env : Env) : String :=
  sq ++ " " ++ legalKeywords sq env

/-- The `hybrid_search` arguments of the second unnamed variant. -/
def searchArgs (sq : String) (vector : List Int) : SearchArgs :=
  { query_text := sq, query_embedding := vector, match_count := 10,
    full_text_weight := 1, semantic_weight := 2, rrf_k := 50 }

/-- The answer-generation prompt of the second unnamed variant. -/
def finalPrompt (contextText : String) (history : Option (List Turn))
    (question sq : String) : String :=
  "\n    You are a Labour Law Assistant. You have two goals: \n    1. Have a natural, human conversation with the client.\n    2. Provide a technical legal breakdown for their records.\n\n    CONTEXT (Legal Documents):\n    " ++ contextText ++
  "\n\n    CONVERSATION HISTORY:\n    " ++ stringifyHistory (history.getD []) ++
  "\n\n    CURRENT USER QUERY:\n    " ++ question ++ " (Contextualized as: " ++ sq ++ ")" ++
  "\n\n    INSTRUCTIONS:\n    Return a JSON object with exactly these two fields:\n    \n    1. \"conversation\": \n       - A friendly, short response (2-3 sentences max). \n       - Acknowledge facts mentioned earlier in the history (e.g., \"Since you mentioned you work on Saturdays...\").\n       - Use simple, layperson English.\n\n    2. \"legal_reasoning\":\n       - A structured, technical note.\n       - Cite specific Acts, Sections, or Schedules found in the CONTEXT.\n       - Explain *why* the law applies to the user\x27s specific story facts.\n       - Format this as a markdown string (use bullet points).\n    "

/-- The second unnamed handler: rewrite, expand, search with the combined
query, structured generation. -/
def handler (req : Request) (env : Env) : Response × List CallEv :=
  if req.httpMethod != "POST" then
    ({ statusCode := 405, body := Body.rawText "Method Not Allowed" }, [])
  else
    match req.body with
    | Except.error msg => ({ statusCode := 500, body := jsonErr msg }, [])
    | Except.ok b =>
      if questionFalsy b.question then
        ({ statusCode := 400, body := jsonErr "Question required" }, [])
      else
        let q := b.question.getD ""
        let s := standalone q b.history env
        let sq := s.1
        let combined := combinedSearchQuery sq env
        let vector := env.embed combined
        let args := searchArgs combined vector
        let res := env.hybridSearch args
        let tr := s.2 ++ [CallEv.genText (expansionPrompt sq), CallEv.embed combined, CallEv.search args]
        match res.error with
        | some msg => ({ statusCode := 500, body := jsonErr ("Database Error: " ++ msg) }, tr)
        | none =>
          match res.data with
          | none => ({ statusCode := 500, body := jsonErr nullMapMsg }, tr)
          | some chunks =>
            let fp := finalPrompt (contextTextId chunks) b.history q sq
            let tr4 := tr ++ [CallEv.genJson fp]
            match env.generateJson fp with
            | Except.error msg => ({ statusCode := 500, body := jsonErr msg }, tr4)
            | Except.ok j => ({ statusCode := 200, body := Body.jsonOf j }, tr4)

end Part001

namespace GetCases

/-- Serialization of a persisted case row in the listing response. -/
def caseRowJson (r : CaseRow) : Json :=
  Json.obj
    [("id", Json.str r.id), ("updated_at", Json.str r.updated_at),
     ("issue_summary", Json.str r.issue_summary),
     ("client_name", match r.client_name with | some s => Json.str s | none => Json.null),
     ("contact_info", match r.contact_info with | some s => Json.str s | none => Json.null)]

/-- The read-only cases listing handler: GET only; a store error is thrown
and surfaced as a 500 with the error message. -/
def handler (httpMethod : String) (res : CasesQueryResult) : Response :=
  if httpMethod != "GET" then
    { statusCode := 405, body := Body.rawText "Method Not Allowed" }
  else
    match res.error with
    | some msg => { statusCode := 500, body := jsonErr msg }
    | none =>
      match res.data with
      | some rows => { statusCode := 200, body := Body.jsonOf (Json.arr (rows.map caseRowJson)) }
      | none => { statusCode := 200, body := Body.jsonOf Json.null }

end GetCases

/-- Spec-side completeness predicate: every required Case Record field other
than the merits-assessed flag is non-null. -/
def allRequiredKnown (cf : CaseFacts) : Bool :=
  cf.client_name.isSome && cf.contact_info.isSome && cf.employer_name.isSome &&
  cf.incident_date.isSome && cf.incident_description.isSome && cf.hearing_held.isSome

/-- Spec-side predicate on trace events: a `hybrid_search` call carries a
strictly positive match count and exactly the fixed fusion parameters
(full-text weight 1.0, semantic weight 2.0, rrf_k 50); non-search events are
unconstrained. -/
def goodSearchEv : CallEv → Bool
  | CallEv.search args =>
    decide (0 < args.match_count) && (args.full_text_weight == 1) &&
    (args.semantic_weight == 2) && (args.rrf_k == 50)
  | _ => true

/-- A fully populated Case Record. -/
def cfKnown : CaseFacts :=
  { client_name := some "Thandi", contact_info := some "thandi@example.com",
    employer_name := some "Acme Ltd", incident_date := some "2024-05-01",
    incident_description := some "Dismissed without a hearing",
    hearing_held := some false, case_merit_assessed := some false }

/-- An extraction output in which every required field is null. -/
def cfNulls : CaseFacts :=
  { client_name := none, contact_info := none, employer_name := none,
    incident_date := none, incident_description := none,
    hearing_held := none, case_merit_assessed := some false }

/-- A stored case row whose required fields were all previously known. -/
def rowBefore : CaseRow :=
  { id := "case-7", updated_at := "t0",
    issue_summary := "Dismissed without a hearing", case_facts := cfKnown,
    client_name := some "Thandi", contact_info := some "thandi@example.com" }

/-- A concrete oracle environment used by witnesses: every provider call
succeeds, the search returns an empty chunk list, extraction returns the
all-null record, and both case-store writes report an error. -/
def envTest : Env :=
  { generate := fun _ => "KW"
    embed := fun _ => []
    hybridSearch := fun _ => { data := some [], error := none }
    extract := fun _ => Except.ok cfNulls
    generateJson := fun _ => Except.ok Json.null
    generateCase := fun _ =>
      Except.ok [("conversation", Json.str "ok"), ("legal_reasoning", Json.str "note")]
    updateCase := fun _ _ => { error := some "store down" }
    insertCase := fun _ => { data := none, error := some "insert failed" }
    now := "T1" }

/-- A variant of the witness environment whose search backend reports an
error. -/
def envErr : Env :=
  { envTest with hybridSearch := fun _ => { data := none, error := some "connection refused" } }

/-- The concrete update-path request used by the merge counterexample. -/
def reqC2 : Request := postReq (some "hi") none (some "case-7")

/-- Spec-side predicate on trace events, relative to an expected combined
query `c` and its embedding vector `v`: every hybrid-search call uses `c` as
the lexical query text and `v` as the embedded vector, and every embedding
call embeds `c`; other events are unconstrained. -/
def usesCombined (c : String) (v : List Int) : CallEv → Bool
  | CallEv.search a => a.query_text == c && a.query_embedding == v
  | CallEv.embed t => t == c
  | _ => true

/-- Spec-side response classifier: a response is either the plain-text 405
rejection, a 400 or 500 failure carrying a JSON `error` object, or a 200
success. -/
def respClassified (r : Response) : Bool :=
  (r.statusCode == 405 &&
    (match r.body with
     | Body.rawText s => s == "Method Not Allowed"
     | _ => false)) ||
  ((r.statusCode == 400 || r.statusCode == 500) && isJsonErrorBody r.body) ||
  (r.statusCode == 200)

/-- Claim C3: the Response Generator stage of the case-tracking handler is a
pure function of the extracted Case Record: when every required field other
than the merits-assessed flag is non-null the Assessment stage (STAGE 2) is
selected, when any such field is null the Intake stage (STAGE 1) is
selected, the merits flag never influences the selection, and the
missing-field list is exactly the null required fields of the record. -/
theorem c3_stage_pure_function (cf : CaseFacts) :
    (allRequiredKnown cf = true → AskV4.stage cf = "STAGE 2: MERIT ASSESSMENT & PITCH") ∧
    (allRequiredKnown cf = false → AskV4.stage cf = "STAGE 1: INTAKE CHECKLIST") ∧
    (∀ b, AskV4.stage { cf with case_merit_assessed := b } = AskV4.stage cf) ∧
    (allRequiredKnown cf = true ↔ cf.missingFields = []) := by
  obtain ⟨c1, c2, c3, c4, c5, c6, c7⟩ := cf
  cases c1 <;> cases c2 <;> cases c3 <;> cases c4 <;> cases c5 <;> cases c6 <;>
    simp [allRequiredKnown, AskV4.stage, CaseFacts.missingFields]

/-- Witness for C3 at two concrete records: the fully known record selects
STAGE 2 and the all-null record selects STAGE 1. -/
theorem c3_stage_pure_function_witness :
    AskV4.stage cfKnown = "STAGE 2: MERIT ASSESSMENT & PITCH" ∧
    AskV4.stage cfNulls = "STAGE 1: INTAKE CHECKLIST" :=
  ⟨(c3_stage_pure_function cfKnown).1 rfl, (c3_stage_pure_function cfNulls).2.1 rfl⟩

/-- Counterexample to claim C2: on the update path the payload carries the
extraction output wholesale in its case_facts column, so an extractor null
for employer_name overwrites the previously known value in the persisted
record.  The handler issues exactly this update payload, and applying the
store update semantics regresses employer_name from a known value to null. -/
theorem c2_null_overwrites_counterexample :
    rowBefore.case_facts.employer_name = some "Acme Ltd" ∧
    cfNulls.employer_name = none ∧
    CallEv.updateCase "case-7" (mkDbPayload "T1" cfNulls) ∈ (AskV4.handler reqC2 envTest).2 ∧
    (applyUpdate rowBefore (mkDbPayload "T1" cfNulls)).case_facts.employer_name = none := by
  refine ⟨rfl, rfl, ?_, rfl⟩
  decide

/-- Claim C2 amended: the merge-update is additive only for the two
top-level contact columns (a falsy extractor value leaves the stored
client_name and contact_info unchanged); the case_facts column, which holds
every required field, is overwritten wholesale with the new extraction
output, so a null extractor field does regress a previously known required
field inside the persisted case_facts. -/
theorem c2_merge_policy_amended (row : CaseRow) (now : String) (cf : CaseFacts) :
    (applyUpdate row (mkDbPayload now cf)).case_facts = cf ∧
    (optStrTruthy cf.client_name = false →
      (applyUpdate row (mkDbPayload now cf)).client_name = row.client_name) ∧
    (optStrTruthy cf.contact_info = false →
      (applyUpdate row (mkDbPayload now cf)).contact_info = row.contact_info) ∧
    (optStrTruthy cf.client_name = true →
      (applyUpdate row (mkDbPayload now cf)).client_name = cf.client_name) ∧
    (optStrTruthy cf.contact_info = true →
      (applyUpdate row (mkDbPayload now cf)).contact_info = cf.contact_info) := by
  refine ⟨rfl, ?_, ?_, ?_, ?_⟩ <;> intro h
  · simp [applyUpdate, mkDbPayload, h]
  · simp [applyUpdate, mkDbPayload, h]
  · rcases hc : cf.client_name with _ | s
    · simp [optStrTruthy, hc] at h
    · rw [hc] at h
      simp [applyUpdate, mkDbPayload, h, hc]
  · rcases hc : cf.contact_info with _ | s
    · simp [optStrTruthy, hc] at h
    · rw [hc] at h
      simp [applyUpdate, mkDbPayload, h, hc]

/-- Witness for the amended C2 at a concrete row and extraction: the blob is
replaced with the all-null record while the top-level client_name column
keeps its stored value. -/
theorem c2_merge_policy_amended_witness :
    (applyUpdate rowBefore (mkDbPayload "T1" cfNulls)).case_facts = cfNulls ∧
    (applyUpdate rowBefore (mkDbPayload "T1" cfNulls)).client_name = some "Thandi" := by
  refine ⟨(c2_merge_policy_amended rowBefore "T1" cfNulls).1, ?_⟩
  have h := (c2_merge_policy_amended rowBefore "T1" cfNulls).2.1 rfl
  simpa [rowBefore] using h

/-- A string extended with a separator and a suffix differs from both the
original string and the suffix (their lengths differ). -/
theorem append_sep_ne (s k : String) : s ++ " " ++ k ≠ s ∧ s ++ " " ++ k ≠ k := by
  have hsp : (" " : String).length = 1 := rfl
  constructor
  · intro h
    have h2 := congrArg String.length h
    simp only [String.length_append, hsp] at h2
    omega
  · intro h
    have h2 := congrArg String.length h
    simp only [String.length_append, hsp] at h2
    omega

/-- Claim C7: every hybrid_search call made by any handler variant carries a
strictly positive match count and exactly the fixed fusion parameters:
full-text weight 1.0, semantic weight 2.0 and rank-fusion constant
rrf_k 50. -/
theorem c7_fixed_fusion_parameters (req : Request) (env : Env) :
    ((AskV1.handler req env).2.all goodSearchEv = true) ∧
    ((AskV2.handler req env).2.all goodSearchEv = true) ∧
    ((AskV3.handler req env).2.all goodSearchEv = true) ∧
    ((AskV4.handler req env).2.all goodSearchEv = true) ∧
    ((Part000.handler req env).2.all goodSearchEv = true) ∧
    ((Part001.handler req env).2.all goodSearchEv = true) := by
  refine ⟨?_, ?_, ?_, ?_, ?_, ?_⟩
  · unfold AskV1.handler
    dsimp only
    repeat' (first | rfl | split)
  · unfold AskV2.handler
    dsimp only
    repeat' (first | rfl | split)
  · unfold AskV3.handler
    dsimp only
    repeat' (first | rfl | split)
  · unfold AskV4.handler AskV4.pipeline AskV4.afterSearch AskV4.generatePhase AskV4.upsert AskV4.standalone
    dsimp only
    repeat' (first | rfl | split)
  · unfold Part000.handler Part000.standalone
    dsimp only
    repeat' (first | rfl | split)
  · unfold Part001.handler Part001.standalone
    dsimp only
    repeat' (first | rfl | split)

/-- Counterexample to claim C5: the wrong-method rejection of the
case-tracking handler (and of the cases listing handler) is the plain text
body `Method Not Allowed`, which is not a JSON object with an error field. -/
theorem c5_405_plain_text_counterexample :
    (AskV4.handler { httpMethod := "GET", body := Except.error "ignored" } envTest).1.statusCode = 405 ∧
    (AskV4.handler { httpMethod := "GET", body := Except.error "ignored" } envTest).1.body =
      Body.rawText "Method Not Allowed" ∧
    isJsonErrorBody
      (AskV4.handler { httpMethod := "GET", body := Except.error "ignored" } envTest).1.body = false ∧
    GetCases.handler "POST" { data := some [], error := none } =
      { statusCode := 405, body := Body.rawText "Method Not Allowed" } :=
  ⟨rfl, rfl, rfl, rfl⟩

/-- Claim C5 amended: failing requests answered with a JSON body always
carry an `error` text field (400 for a missing question, 500 for any
downstream or parse failure), but the 405 wrong-method rejection carries the
plain text body `Method Not Allowed`, not a JSON error object. -/
theorem c5_error_body_amended (req : Request) (env : Env) (method : String)
    (res : CasesQueryResult) :
    respClassified (AskV4.handler req env).1 = true ∧
    respClassified (GetCases.handler method res) = true := by
  constructor
  · unfold AskV4.handler AskV4.pipeline AskV4.afterSearch AskV4.generatePhase AskV4.upsert AskV4.standalone
    dsimp only
    repeat' (first | rfl | split)
  · unfold GetCases.handler
    repeat' (first | rfl | split)

/-- Claim C8: a POST request whose parsed body lacks a (truthy) question
returns the 400 validation error with an empty call trace — no rewrite,
expansion, embedding, search, extraction, persistence or generation call is
made — in both the case-tracking variant and the second unnamed variant. -/
theorem c8_validation_before_any_call (env : Env) (hist : Option (List Turn))
    (cid : Option String) :
    AskV4.handler (postReq none hist cid) env =
      ({ statusCode := 400, body := jsonErr "Question required" }, []) ∧
    AskV4.handler (postReq (some "") hist cid) env =
      ({ statusCode := 400, body := jsonErr "Question required" }, []) ∧
    Part001.handler (postReq none hist cid) env =
      ({ statusCode := 400, body := jsonErr "Question required" }, []) ∧
    Part001.handler (postReq (some "") hist cid) env =
      ({ statusCode := 400, body := jsonErr "Question required" }, []) :=
  ⟨rfl, rfl, rfl, rfl⟩

/-- Claim C1: in every pipeline variant that performs query expansion (the
third ask variant and both unnamed variants), the query handed to the
search backend — as lexical text and as the text that is embedded — is
exactly the standalone question, a single space, and the expansion-keyword
text; it is never the standalone question alone and never the keyword text
alone. -/
theorem c1_combined_search_query (q : String) (hist : Option (List Turn))
    (cid : Option String) (env : Env) :
    ((AskV3.handler (postReq (some q) hist cid) env).2.all
        (usesCombined (AskV3.combinedSearchQuery q env)
          (env.embed (AskV3.combinedSearchQuery q env))) = true) ∧
    AskV3.combinedSearchQuery q env = q ++ " " ++ AskV3.legalKeywords q env ∧
    AskV3.combinedSearchQuery q env ≠ q ∧
    AskV3.combinedSearchQuery q env ≠ AskV3.legalKeywords q env ∧
    ((Part000.handler (postReq (some q) hist cid) env).2.all
        (usesCombined (Part000.combinedSearchQuery (Part000.standalone q hist env).1 env)
          (env.embed (Part000.combinedSearchQuery (Part000.standalone q hist env).1 env))) = true) ∧
    Part000.combinedSearchQuery (Part000.standalone q hist env).1 env =
      (Part000.standalone q hist env).1 ++ " " ++
        Part000.legalKeywords (Part000.standalone q hist env).1 env ∧
    Part000.combinedSearchQuery (Part000.standalone q hist env).1 env ≠
      (Part000.standalone q hist env).1 ∧
    Part000.combinedSearchQuery (Part000.standalone q hist env).1 env ≠
      Part000.legalKeywords (Part000.standalone q hist env).1 env ∧
    ((Part001.handler (postReq (some q) hist cid) env).2.all
        (usesCombined (Part001.combinedSearchQuery (Part001.standalone q hist env).1 env)
          (env.embed (Part001.combinedSearchQuery (Part001.standalone q hist env).1 env))) = true) ∧
    Part001.combinedSearchQuery (Part001.standalone q hist env).1 env =
      (Part001.standalone q hist env).1 ++ " " ++
        Part001.legalKeywords (Part001.standalone q hist env).1 env ∧
    Part001.combinedSearchQuery (Part001.standalone q hist env).1 env ≠
      (Part001.standalone q hist env).1 ∧
    Part001.combinedSearchQuery (Part001.standalone q hist env).1 env ≠
      Part001.legalKeywords (Part001.standalone q hist env).1 env := by
  refine ⟨?_, rfl, (append_sep_ne _ _).1, (append_sep_ne _ _).2,
          ?_, rfl, (append_sep_ne _ _).1, (append_sep_ne _ _).2,
          ?_, rfl, (append_sep_ne _ _).1, (append_sep_ne _ _).2⟩ <;>
  · rcases hist with _ | (_ | ⟨h, t⟩) <;>
    · simp only [AskV3.handler, Part000.handler, Part001.handler, Part000.standalone,
        Part001.standalone, postReq, Option.getD]
      repeat' (first | rfl | split)
      all_goals simp [usesCombined, AskV3.searchArgs, Part000.searchArgs, Part001.searchArgs]

/-- Witness for C1 at a concrete request and environment: the expansion
variant of the ask handler passes the combined query on both search
channels. -/
theorem c1_combined_search_query_witness :
    ((AskV3.handler (postReq (some "hi") none none) envTest).2.all
        (usesCombined (AskV3.combinedSearchQuery "hi" envTest)
          (envTest.embed (AskV3.combinedSearchQuery "hi" envTest))) = true) ∧
    AskV3.combinedSearchQuery "hi" envTest ≠ "hi" := by
  have h := c1_combined_search_query "hi" none none envTest
  exact ⟨h.1, h.2.2.1⟩

/-- Claim C6: with empty (absent or zero-length) history the Query Rewriter
of the case-tracking variant and of the second unnamed variant makes no
generation call and the standalone question is the input question
unchanged — in particular the case-tracking handler then makes no free-form
generation call at all, and every search and embedding call uses the raw
question; with non-empty history the standalone question is the trimmed
provider output for the rewrite prompt. -/
theorem c6_rewriter_history_gate (q : String) (env : Env) :
    (∀ hist, histNonempty hist = false →
      AskV4.standalone q hist env = (q, []) ∧ Part001.standalone q hist env = (q, [])) ∧
    (∀ h t,
      AskV4.standalone q (some (h :: t)) env =
        ((env.generate (AskV4.rewritePrompt q (historyText (h :: t)))).trim,
          [CallEv.genText (AskV4.rewritePrompt q (historyText (h :: t)))]) ∧
      Part001.standalone q (some (h :: t)) env =
        ((env.generate (Part001.rewritePrompt q (historyText (h :: t)))).trim,
          [CallEv.genText (Part001.rewritePrompt q (historyText (h :: t)))])) ∧
    (∀ hist cid, histNonempty hist = false →
      ((AskV4.handler (postReq (some q) hist cid) env).2.all
        (fun ev => !ev.isGenText)) = true ∧
      ((AskV4.handler (postReq (some q) hist cid) env).2.all
        (usesCombined q (env.embed q))) = true) := by
  refine ⟨?_, ?_, ?_⟩
  · intro hist hh
    rcases hist with _ | (_ | ⟨h, t⟩)
    · exact ⟨rfl, rfl⟩
    · exact ⟨rfl, rfl⟩
    · simp [histNonempty] at hh
  · intro h t
    exact ⟨rfl, rfl⟩
  · intro hist cid hh
    rcases hist with _ | (_ | ⟨h, t⟩)
    · constructor <;>
      · simp only [AskV4.handler, AskV4.pipeline, AskV4.afterSearch, AskV4.generatePhase,
          AskV4.upsert, AskV4.standalone, postReq, Option.getD]
        repeat' (first | rfl | split)
        all_goals simp [usesCombined, AskV4.searchArgs, CallEv.isGenText]
    · constructor <;>
      · simp only [AskV4.handler, AskV4.pipeline, AskV4.afterSearch, AskV4.generatePhase,
          AskV4.upsert, AskV4.standalone, postReq, Option.getD]
        repeat' (first | rfl | split)
        all_goals simp [usesCombined, AskV4.searchArgs, CallEv.isGenText]
    · simp [histNonempty] at hh

/-- Witness for C6 at a concrete question and environment: the empty-history
case yields the unchanged question with no rewrite call, and the
case-tracking handler makes no free-form generation call at all. -/
theorem c6_rewriter_history_gate_witness :
    AskV4.standalone "hi" none envTest = ("hi", []) ∧
    ((AskV4.handler (postReq (some "hi") none none) envTest).2.all
      (fun ev => !ev.isGenText)) = true := by
  have h := c6_rewriter_history_gate "hi" envTest
  exact ⟨(h.1 none rfl).1, (h.2.2 none none rfl).1⟩

/-- Claim C4: when the search backend reports an error, the case-tracking
handler responds 500 with a JSON error body whose message is the
`Database Error:` wrapping of the backend message, its trace stops exactly
at the search call, and in particular it makes no structured generation
call (extraction or answer generation) and no case-store write — no partial
results are returned. -/
theorem c4_search_error_aborts (q : String) (hist : Option (List Turn)) (cid : Option String)
    (env : Env) (msg : String) (hq : q ≠ "")
    (hs : (env.hybridSearch (AskV4.searchArgs (AskV4.standalone q hist env).1
            (env.embed (AskV4.standalone q hist env).1))).error = some msg) :
    AskV4.handler (postReq (some q) hist cid) env =
      ({ statusCode := 500, body := jsonErr ("Database Error: " ++ msg) },
       (AskV4.standalone q hist env).2 ++
         [CallEv.embed (AskV4.standalone q hist env).1,
          CallEv.search (AskV4.searchArgs (AskV4.standalone q hist env).1
            (env.embed (AskV4.standalone q hist env).1))]) ∧
    ((AskV4.handler (postReq (some q) hist cid) env).2.all fun ev => !ev.isGenJson) = true ∧
    ((AskV4.handler (postReq (some q) hist cid) env).2.all fun ev => !ev.isPersist) = true := by
  have hq2 : (q == "") = false := by simpa using hq
  have hm : AskV4.handler (postReq (some q) hist cid) env =
      ({ statusCode := 500, body := jsonErr ("Database Error: " ++ msg) },
       (AskV4.standalone q hist env).2 ++
         [CallEv.embed (AskV4.standalone q hist env).1,
          CallEv.search (AskV4.searchArgs (AskV4.standalone q hist env).1
            (env.embed (AskV4.standalone q hist env).1))]) := by
    simp only [AskV4.handler, AskV4.pipeline, postReq, Option.getD, questionFalsy, hq2]
    rw [hs]
    rfl
  refine ⟨hm, ?_, ?_⟩ <;>
  · rw [hm]
    rcases hist with _ | (_ | ⟨h, t⟩) <;> rfl

/-- Witness for C4 at a concrete request against an environment whose
search backend fails. -/
theorem c4_search_error_aborts_witness :
    AskV4.handler (postReq (some "hi") none none) envErr =
      ({ statusCode := 500, body := jsonErr ("Database Error: " ++ "connection refused") },
       [CallEv.embed "hi",
        CallEv.search (AskV4.searchArgs "hi" (envErr.embed "hi"))]) :=
  (c4_search_error_aborts "hi" none none envErr "connection refused" (by decide) rfl).1

/-- Claim C9: on the update path (a truthy case identifier supplied) the
update result is never inspected: even when the case store reports an error
for the update, the handler still performs the final generation and returns
HTTP 200 echoing the supplied caseId, with the update call present in its
trace — the persistence failure is silently dropped. -/
theorem c9_update_error_ignored (q : String) (hist : Option (List Turn)) (cid : String)
    (env : Env) (chunks : List Chunk) (cf : CaseFacts) (fields : List (String × Json))
    (e : String) (hq : q ≠ "") (hcid : cid ≠ "")
    (hs : env.hybridSearch (AskV4.searchArgs (AskV4.standalone q hist env).1
            (env.embed (AskV4.standalone q hist env).1)) = { data := some chunks, error := none })
    (hx : env.extract (AskV4.extractionPrompt ((hist.getD []) ++ [{ role := "user", content := q }])) =
      Except.ok cf)
    (hg : env.generateCase (AskV4.finalPrompt cf (contextTextId chunks) q) = Except.ok fields)
    (_hu : env.updateCase cid (mkDbPayload env.now cf) = { error := some e }) :
    (AskV4.handler (postReq (some q) hist (some cid)) env).1 =
      { statusCode := 200,
        body := Body.jsonOf (Json.obj (fields ++ [("caseId", Json.str cid)])) } ∧
    CallEv.updateCase cid (mkDbPayload env.now cf) ∈
      (AskV4.handler (postReq (some q) hist (some cid)) env).2 := by
  have hq2 : (q == "") = false := by simpa using hq
  have hcid2 : (cid != "") = true := by simpa using hcid
  refine ⟨?_, ?_⟩ <;>
    simp [AskV4.handler, AskV4.pipeline, AskV4.afterSearch, AskV4.generatePhase,
      AskV4.upsert, postReq, questionFalsy, optStrTruthy, hq2, hs, hx, hg, hcid2]

/-- Witness for C9 at a concrete request against an environment whose case
store rejects the update: the response is still a 200 carrying the supplied
caseId. -/
theorem c9_update_error_ignored_witness :
    (AskV4.handler (postReq (some "hi") none (some "case-7")) envTest).1 =
      { statusCode := 200,
        body := Body.jsonOf (Json.obj
          ([("conversation", Json.str "ok"), ("legal_reasoning", Json.str "note")] ++
            [("caseId", Json.str "case-7")])) } :=
  (c9_update_error_ignored "hi" none "case-7" envTest [] cfNulls
    [("conversation", Json.str "ok"), ("legal_reasoning", Json.str "note")] "store down"
    (by decide) (by decide) rfl rfl rfl rfl).1

/-- Claim C10: on the insert path (no case identifier) the insert result
error channel is never checked before dereferencing the returned row: when
the store insert fails and yields no row, the handler responds 500 with the
null-dereference TypeError message (not the store failure message) and its
trace stops at the insert call — no final generation happens. -/
theorem c10_insert_null_dereference (q : String) (hist : Option (List Turn))
    (env : Env) (chunks : List Chunk) (cf : CaseFacts) (e : String) (hq : q ≠ "")
    (hs : env.hybridSearch (AskV4.searchArgs (AskV4.standalone q hist env).1
            (env.embed (AskV4.standalone q hist env).1)) = { data := some chunks, error := none })
    (hx : env.extract (AskV4.extractionPrompt ((hist.getD []) ++ [{ role := "user", content := q }])) =
      Except.ok cf)
    (hi : env.insertCase (mkDbPayload env.now cf) = { data := none, error := some e }) :
    (AskV4.handler (postReq (some q) hist none) env).1 =
      { statusCode := 500, body := jsonErr nullIdMsg } ∧
    (AskV4.handler (postReq (some q) hist none) env).2 =
      (AskV4.standalone q hist env).2 ++
        [CallEv.embed (AskV4.standalone q hist env).1,
         CallEv.search (AskV4.searchArgs (AskV4.standalone q hist env).1
           (env.embed (AskV4.standalone q hist env).1)),
         CallEv.genJson (AskV4.extractionPrompt ((hist.getD []) ++ [{ role := "user", content := q }])),
         CallEv.insertCase (mkDbPayload env.now cf)] := by
  have hq2 : (q == "") = false := by simpa using hq
  refine ⟨?_, ?_⟩ <;>
    simp [AskV4.handler, AskV4.pipeline, AskV4.afterSearch, AskV4.generatePhase,
      AskV4.upsert, postReq, questionFalsy, optStrTruthy, hq2, hs, hx, hi]

/-- Witness for C10 at a concrete request against an environment whose case
store insert fails: the response is the 500 with the TypeError message. -/
theorem c10_insert_null_dereference_witness :
    (AskV4.handler (postReq (some "hi") none none) envTest).1 =
      { statusCode := 500, body := jsonErr nullIdMsg } :=
  (c10_insert_null_dereference "hi" none envTest [] cfNulls "insert failed"
    (by decide) rfl rfl rfl).1

end LLA
